import Mathlib

/-!
Verification of the RPC dispatcher and named-registry state machine of
`src/app/src/lib.rs` (the `satsails-lwk` app crate).

Pure data and control flow of `inner_method_handler` and `signer_response_from`
are translated directly from the source.  Collaborator modules of this
repository that are not present under `src/` (`state.rs`, `method.rs`,
`error.rs`) and the external wallet/signer engines are modelled from the
specification at their interface boundary; each such definition says so in its
doc comment.
-/

namespace SatsailsLwk

abbrev Name := String
abbrev Fingerprint := String

/-! ## Descriptor model (external `elements_miniscript`, modelled at the interface boundary) -/

/-- Modelled from the spec: a miniscript terminal node, as exposed by the external
descriptor library; the classifier only distinguishes the `Multi` node. -/
inductive Terminal where
  | multi (k : Nat) (pks : List String)
  | pk (key : String)
  | other (tag : String)
  deriving DecidableEq, Repr

/-- Modelled from the spec: the inner of a witness-script-hash descriptor. -/
inductive WshInner where
  | sortedMulti (k : Nat) (pks : List String)
  | ms (node : Terminal)
  deriving DecidableEq, Repr

/-- Modelled from the spec: the descriptor variants relevant to the classifier. -/
inductive Descriptor where
  | wpkh (key : String)
  | shWpkh (key : String)
  | shOther (tag : String)
  | wsh (inner : WshInner)
  | bare (tag : String)
  | pkh (key : String)
  deriving DecidableEq, Repr

/-- Modelled from the spec: the `DescriptorType` tags returned by the external
library for the descriptor variants above. -/
inductive DescriptorType where
  | Wpkh
  | ShWpkh
  | Sh
  | Wsh
  | WshSortedMulti
  | Bare
  | Pkh
  deriving DecidableEq, Repr

/-- Modelled from the spec: `desc_type()` of the external descriptor library. -/
def Descriptor.descType : Descriptor → DescriptorType
  | .wpkh _ => .Wpkh
  | .shWpkh _ => .ShWpkh
  | .shOther _ => .Sh
  | .wsh (.sortedMulti _ _) => .WshSortedMulti
  | .wsh (.ms _) => .Wsh
  | .bare _ => .Bare
  | .pkh _ => .Pkh

/-- The closed wallet-type taxonomy of `request::WalletType`. -/
inductive WalletType where
  | wpkh
  | shWpkh
  | wshMulti (threshold : Nat) (keys : Nat)
  | unknown
  deriving DecidableEq, Repr

def WalletType.toStr : WalletType → String
  | .wpkh => "wpkh"
  | .shWpkh => "sh_wpkh"
  | .wshMulti t k => "wsh_multi_" ++ toString t ++ "of" ++ toString k
  | .unknown => "unknown"

/-- Descriptor classification, translated from the `Method::WalletDetails` arm
(lines 421-436 of `lib.rs`): first match on `desc_type()`, otherwise inspect a
`Wsh` descriptor for a `Multi` miniscript node. -/
def walletTypeOf (d : Descriptor) : WalletType :=
  match d.descType with
  | .Wpkh => .wpkh
  | .ShWpkh => .shWpkh
  | _ =>
    match d with
    | .wsh inner =>
      match inner with
      | .ms node =>
        match node with
        | .multi threshold pubkeys => .wshMulti threshold pubkeys.length
        | _ => .unknown
      | _ => .unknown
    | _ => .unknown

/-- The classifier as the spec words it (section 4.4): single-key
pay-to-witness-public-key-hash, then single-key script-wrapped
witness-public-key-hash, then witness-script-hash wrapping a multisignature
miniscript expression, else unknown. -/
def walletTypeSpec : Descriptor → WalletType
  | .wpkh _ => .wpkh
  | .shWpkh _ => .shWpkh
  | .wsh (.ms (.multi threshold pubkeys)) => .wshMulti threshold pubkeys.length
  | _ => .unknown

/-! ## Signers -/

/-- Modelled from the spec: identity data exposed by an available signer engine
(`fingerprint()`, `identifier()`, `xpub()`). -/
structure SigInfo where
  fingerprint : Fingerprint
  identifier : String
  xpub : String
  deriving DecidableEq, Repr

/-- Modelled from the spec: `AnySigner` of the external `signer` crate. -/
inductive AnySigner where
  | software (si : SigInfo)
  | jade (si : SigInfo)
  deriving DecidableEq, Repr

def AnySigner.info : AnySigner → SigInfo
  | .software si => si
  | .jade si => si

/-- Modelled from the spec: `AppSigner` of `state.rs` — a tagged variant over an
available signer (live capability) or an external signer (fingerprint only). -/
inductive AppSigner where
  | availableSigner (s : AnySigner)
  | externalSigner (f : Fingerprint)
  deriving DecidableEq, Repr

def AppSigner.fingerprint : AppSigner → Fingerprint
  | .availableSigner s => s.info.fingerprint
  | .externalSigner f => f

/-! ## Errors -/

/-- Modelled from the spec: the error taxonomy of `error.rs` (section 7):
parameter errors, NotFound, Conflict, upstream engine errors, generic string
errors, and the `Stop` sentinel. -/
inductive Error where
  | invalidParams (method : String)
  | nameNotFound (name : Name)
  | nameAlreadyExists (name : Name)
  | generic (msg : String)
  | upstream (msg : String)
  | stop
  deriving DecidableEq, Repr

/-! ## Named registry (modelled from the spec: `state.rs` is not under `src/`) -/

/-- Modelled from the spec: registry lookup; fails with NameNotFound. -/
def regGet {α : Type} (reg : List (Name × α)) (n : Name) : Except Error α :=
  match reg.find? (fun p => p.1 == n) with
  | some p => .ok p.2
  | none => .error (.nameNotFound n)

/-- Modelled from the spec: registry insertion; fails with NameAlreadyExists if
the name is already present. -/
def regInsert {α : Type} (reg : List (Name × α)) (n : Name) (a : α) :
    Except Error (List (Name × α)) :=
  if reg.any (fun p => p.1 == n) then .error (.nameAlreadyExists n)
  else .ok (reg ++ [(n, a)])

/-- Modelled from the spec: registry removal returning the removed entity;
fails with NameNotFound. -/
def regRemove {α : Type} (reg : List (Name × α)) (n : Name) :
    Except Error (α × List (Name × α)) :=
  match reg.find? (fun p => p.1 == n) with
  | some p => .ok (p.2, reg.filter (fun q => q.1 != n))
  | none => .error (.nameNotFound n)

/-! ## External wallet engine (modelled from the spec at its interface boundary, section 6) -/

structure Transaction where
  txid : String
  deriving DecidableEq, Repr

structure Addressee where
  satoshi : Nat
  address : String
  asset : String
  deriving DecidableEq, Repr

/-- Modelled from the spec: a `Wollet` handle of the external wallet engine.
The descriptor it was constructed with is held both as the parsed structure
(used by the classifier) and as its string form (`descriptor().to_string()`);
the remaining fields are the engine operations the dispatcher calls, given as
the outcome each call would produce. -/
structure Wollet where
  descriptorAst : Descriptor
  descriptorString : String
  signersList : List Fingerprint
  syncResult : Except String Unit
  addressAt : Option Nat → Except String (String × Nat)
  balanceResult : Except String (List (String × Nat))
  sendManyResult : List Addressee → Option Nat → Except String String
  finalizeResult : String → Except String Transaction
  broadcastResult : Transaction → Except String Unit
  combineResult : List String → Except String String
  getDetails : String → Except String (List Fingerprint × List Fingerprint)
  issueAssetResult : Nat → String → Nat → String → String → Option Nat → Except String String

/-- Modelled from the spec: an asset-contract description (`wollet::Contract`). -/
structure ContractData where
  domain : String
  issuerPubkey : List Nat
  name : String
  precision : Nat
  ticker : String
  version : Nat
  deriving DecidableEq, Repr

/-- Modelled from the spec: the remaining external collaborators — wallet
construction, signer engines (software, hardware-serial), pure descriptor and
PSET helpers, and contract validation. -/
structure Engine where
  newWollet : String → Except String Wollet
  swSignerRandom : Except String (SigInfo × String)
  swSignerNew : String → Except String SigInfo
  jadeFromSerial : Except String SigInfo
  jadeUnlock : Except String Unit
  singlesigDesc : SigInfo → String → String → Except String String
  multisigDesc : Nat → List String → String → String → Except String String
  keyoriginXpubFromStr : String → Except String String
  signerSign : SigInfo → String → Except String String
  signerKeyoriginXpub : SigInfo → String → Except String String
  parsePset : String → Except String String
  contractValidate : ContractData → Except String Unit

/-- Hexadecimal value of one character, as used by `FromHex`. -/
def hexVal (c : Char) : Option Nat :=
  if ('0' ≤ c) ∧ (c ≤ '9') then some (c.toNat - '0'.toNat)
  else if ('a' ≤ c) ∧ (c ≤ 'f') then some (c.toNat - 'a'.toNat + 10)
  else if ('A' ≤ c) ∧ (c ≤ 'F') then some (c.toNat - 'A'.toNat + 10)
  else none

/-- Modelled from the spec: `Vec::<u8>::from_hex` — an even-length string of
hexadecimal digits decodes to bytes, anything else fails. -/
def bytesFromHexChars : List Char → Except String (List Nat)
  | [] => .ok []
  | [_] => .error "odd length hex string"
  | c1 :: c2 :: rest =>
    match hexVal c1, hexVal c2 with
    | some h, some l =>
      match bytesFromHexChars rest with
      | .ok bs => .ok ((h * 16 + l) :: bs)
      | .error e => .error e
    | _, _ => .error "invalid hex character"

def bytesFromHex (s : String) : Except String (List Nat) :=
  bytesFromHexChars s.data

/-- Modelled from the spec: `Fingerprint::from_str` of the external bitcoin
library — exactly eight hexadecimal digits. -/
def fingerprintFromStr (s : String) : Except String Fingerprint :=
  if s.length = 8 ∧ s.data.all (fun c => (hexVal c).isSome) then .ok s
  else .error ("bad fingerprint: " ++ s)

/-- Modelled from the spec: `AssetId::from_str` of the external elements
library — exactly sixty-four hexadecimal digits. -/
def assetIdFromStr (s : String) : Except String String :=
  if s.length = 64 ∧ s.data.all (fun c => (hexVal c).isSome) then .ok s
  else .error ("bad asset id: " ++ s)

/-! ## Session state (modelled from the spec: `state.rs` is not under `src/`) -/

/-- Modelled from the spec: the `State` of `state.rs` — the wallet registry,
the signer registry, and the asset metadata cache (configuration elided). -/
structure State where
  wollets : List (Name × Wollet) := []
  signers : List (Name × AppSigner) := []
  assets : List (String × String) := []

/-- Modelled from the spec: `State::get_asset` — cached metadata lookup,
failing if the asset id is unknown. -/
def getAsset (assets : List (String × String)) (aid : String) : Except Error String :=
  match assets.find? (fun p => p.1 == aid) with
  | some p => .ok p.2
  | none => .error (.generic ("asset not found: " ++ aid))

/-- Modelled from the spec: `Signers::get_available` of `state.rs` — resolves a
name and rejects the external (capability-less) variant with a typed error. -/
def getAvailable (reg : List (Name × AppSigner)) (n : Name) : Except Error AnySigner :=
  match regGet reg n with
  | .error e => .error e
  | .ok (.availableSigner s) => .ok s
  | .ok (.externalSigner _) =>
    .error (.generic ("Signer " ++ n ++ " is external and cannot sign"))

def dupFingerprintWarning : String :=
  "wallet has multiple signers with the same fingerprint"

def unknownFingerprintWarning : String := "unknown fingerprint"

def registryCollisionWarning : String := "fingerprint matches multiple signers"

/-- Modelled from the spec: `Signers::name_from_fingerprint` of `state.rs`
(section 4.5) — exactly one registry entry with a matching fingerprint resolves
to its name; none resolves to a placeholder appending an unknown-fingerprint
warning; several resolve to a placeholder appending a name-collision warning. -/
def name_from_fingerprint (reg : List (Name × AppSigner)) (f : Fingerprint)
    (warnings : List String) : String × List String :=
  match reg.filter (fun p => p.2.fingerprint == f) with
  | [] => ("unknown", warnings ++ [unknownFingerprintWarning])
  | [p] => (p.1, warnings)
  | _ :: _ :: _ => ("multiple", warnings ++ [registryCollisionWarning])

/-! ## Response data model (`rpc_model` crate, shapes as used by `lib.rs`) -/

structure WalletResp where
  name : String
  descriptor : String
  deriving DecidableEq, Repr

structure SignerResponse where
  name : String
  id : Option String
  fingerprint : Fingerprint
  xpub : Option String
  deriving DecidableEq, Repr

structure SignerDetails where
  name : String
  fingerprint : Fingerprint
  deriving DecidableEq, Repr

/-- Translated from `signer_response_from` (lines 579-598 of `lib.rs`): an
available signer reports fingerprint, identifier and xpub; an external signer
reports only its fingerprint. -/
def signer_response_from (name : Name) (signer : AppSigner) : SignerResponse :=
  match signer with
  | .availableSigner s =>
    { name := name, id := some s.info.identifier,
      fingerprint := s.info.fingerprint, xpub := some s.info.xpub }
  | .externalSigner fingerprint =>
    { name := name, id := none, fingerprint := fingerprint, xpub := none }

inductive Payload where
  | schema (s : String)
  | generateSigner (mnemonic : String)
  | version (v : String)
  | wallet (w : WalletResp)
  | unloadWallet (w : WalletResp)
  | listWallets (ws : List WalletResp)
  | signer (s : SignerResponse)
  | unloadSigner (s : SignerResponse)
  | listSigners (ss : List SignerResponse)
  | address (addr : String) (index : Nat)
  | balance (b : List (String × Nat))
  | pset (p : String)
  | singlesigDescriptor (d : String)
  | multisigDescriptor (d : String)
  | xpub (k : String)
  | broadcast (txid : String)
  | walletDetails (typeStr : String) (signers : List SignerDetails) (warnings : String)
  | walletCombine (p : String)
  | walletPsetDetails (has : List SignerDetails) (missing : List SignerDetails) (warnings : String)
  | contract (c : ContractData)
  | assetDetails (name : String)
  deriving DecidableEq, Repr

/-- Modelled from the spec: the `tiny_jrpc` response envelope — a result keyed
by the request id, or the structured unimplemented marker. -/
inductive Response where
  | result (id : Nat) (payload : Payload)
  | unimplemented (id : Nat) (message : String)
  deriving DecidableEq, Repr

/-! ## Method set (`method.rs` is not under `src/`; modelled from the spec) -/

/-- The closed method set of the dispatcher. -/
inductive Method where
  | Schema
  | GenerateSigner
  | Version
  | LoadWallet
  | UnloadWallet
  | ListWallets
  | LoadSigner
  | UnloadSigner
  | ListSigners
  | Address
  | Balance
  | SendMany
  | SinglesigDescriptor
  | MultisigDescriptor
  | Xpub
  | Sign
  | Broadcast
  | WalletDetails
  | WalletCombine
  | WalletPsetDetails
  | Issue
  | Contract
  | AssetDetails
  | Stop
  deriving DecidableEq, Repr

/-- Modelled from the spec: `Method: FromStr` of `method.rs` — a known name
parses to its method; an unknown name fails with an error carrying the
offending name verbatim. -/
def Method.fromStr (s : String) : Except String Method :=
  if s == "schema" then .ok .Schema
  else if s == "generate_signer" then .ok .GenerateSigner
  else if s == "version" then .ok .Version
  else if s == "load_wallet" then .ok .LoadWallet
  else if s == "unload_wallet" then .ok .UnloadWallet
  else if s == "list_wallets" then .ok .ListWallets
  else if s == "load_signer" then .ok .LoadSigner
  else if s == "unload_signer" then .ok .UnloadSigner
  else if s == "list_signers" then .ok .ListSigners
  else if s == "address" then .ok .Address
  else if s == "balance" then .ok .Balance
  else if s == "send_many" then .ok .SendMany
  else if s == "singlesig_descriptor" then .ok .SinglesigDescriptor
  else if s == "multisig_descriptor" then .ok .MultisigDescriptor
  else if s == "xpub" then .ok .Xpub
  else if s == "sign" then .ok .Sign
  else if s == "broadcast" then .ok .Broadcast
  else if s == "wallet_details" then .ok .WalletDetails
  else if s == "wallet_combine" then .ok .WalletCombine
  else if s == "wallet_pset_details" then .ok .WalletPsetDetails
  else if s == "issue" then .ok .Issue
  else if s == "contract" then .ok .Contract
  else if s == "asset_details" then .ok .AssetDetails
  else if s == "stop" then .ok .Stop
  else .error s

def Method.nameOf : Method → String
  | .Schema => "schema"
  | .GenerateSigner => "generate_signer"
  | .Version => "version"
  | .LoadWallet => "load_wallet"
  | .UnloadWallet => "unload_wallet"
  | .ListWallets => "list_wallets"
  | .LoadSigner => "load_signer"
  | .UnloadSigner => "unload_signer"
  | .ListSigners => "list_signers"
  | .Address => "address"
  | .Balance => "balance"
  | .SendMany => "send_many"
  | .SinglesigDescriptor => "singlesig_descriptor"
  | .MultisigDescriptor => "multisig_descriptor"
  | .Xpub => "xpub"
  | .Sign => "sign"
  | .Broadcast => "broadcast"
  | .WalletDetails => "wallet_details"
  | .WalletCombine => "wallet_combine"
  | .WalletPsetDetails => "wallet_pset_details"
  | .Issue => "issue"
  | .Contract => "contract"
  | .AssetDetails => "asset_details"
  | .Stop => "stop"

/-- The `request::Direction` selector of the `Schema` method. -/
inductive Direction where
  | request
  | response
  deriving DecidableEq, Repr

/-- Modelled from the spec: `Method::schema` of `method.rs` — returns the
parameter or result schema for the method; the schema content itself is out of
scope, only its existence per (method, direction) matters here. -/
def Method.schemaOf (m : Method) (d : Direction) : Except Error String :=
  match d with
  | .request => .ok ("request schema of " ++ m.nameOf)
  | .response => .ok ("response schema of " ++ m.nameOf)

/-! ## Request parameters (`rpc_model::request`, shapes as used by `lib.rs`) -/

/-- The structured parameter payloads of the method set, plus `null`: the value
that `request.params.unwrap_or_default()` yields when the caller sent no
parameters.  Deserializing `null` (or a payload of the wrong shape) into a
method-specific request struct fails with a parameter error, exactly as
`serde_json::from_value` does. -/
inductive Params where
  | schema (method : String) (direction : Direction)
  | loadWallet (name : String) (descriptor : String)
  | unloadWallet (name : String)
  | loadSigner (name : String) (kind : String) (mnemonic : Option String) (fingerprint : Option String)
  | unloadSigner (name : String)
  | address (name : String) (index : Option Nat)
  | balance (name : String)
  | send (name : String) (addressees : List Addressee) (feeRate : Option Nat)
  | singlesigDescriptor (name : String) (singlesigKind : String) (blindingKind : String)
  | multisigDescriptor (threshold : Nat) (keyoriginXpubs : List String) (multisigKind : String) (blindingKind : String)
  | xpub (name : String) (xpubKind : String)
  | sign (name : String) (pset : String)
  | broadcast (name : String) (pset : String) (dryRun : Bool)
  | walletDetails (name : String)
  | walletCombine (name : String) (psets : List String)
  | walletPsetDetails (name : String) (pset : String)
  | issue (name : String) (satoshiAsset : Nat) (addressAsset : Option String) (satoshiToken : Nat) (addressToken : Option String) (contract : Option String) (feeRate : Option Nat)
  | contract (domain : String) (issuerPubkey : String) (name : String) (precision : Nat) (ticker : String) (version : Nat)
  | assetDetails (assetId : String)
  | null
  deriving DecidableEq, Repr

def parseSchema : Params → Except Error (String × Direction)
  | .schema m d => .ok (m, d)
  | _ => .error (.invalidParams "schema")

def parseLoadWallet : Params → Except Error (String × String)
  | .loadWallet n d => .ok (n, d)
  | _ => .error (.invalidParams "load_wallet")

def parseUnloadWallet : Params → Except Error String
  | .unloadWallet n => .ok n
  | _ => .error (.invalidParams "unload_wallet")

def parseLoadSigner : Params → Except Error (String × String × Option String × Option String)
  | .loadSigner n k m f => .ok (n, k, m, f)
  | _ => .error (.invalidParams "load_signer")

def parseUnloadSigner : Params → Except Error String
  | .unloadSigner n => .ok n
  | _ => .error (.invalidParams "unload_signer")

def parseAddress : Params → Except Error (String × Option Nat)
  | .address n i => .ok (n, i)
  | _ => .error (.invalidParams "address")

def parseBalance : Params → Except Error String
  | .balance n => .ok n
  | _ => .error (.invalidParams "balance")

def parseSend : Params → Except Error (String × List Addressee × Option Nat)
  | .send n a f => .ok (n, a, f)
  | _ => .error (.invalidParams "send_many")

def parseSinglesigDescriptor : Params → Except Error (String × String × String)
  | .singlesigDescriptor n s b => .ok (n, s, b)
  | _ => .error (.invalidParams "singlesig_descriptor")

def parseMultisigDescriptor : Params → Except Error (Nat × List String × String × String)
  | .multisigDescriptor t k m b => .ok (t, k, m, b)
  | _ => .error (.invalidParams "multisig_descriptor")

def parseXpub : Params → Except Error (String × String)
  | .xpub n k => .ok (n, k)
  | _ => .error (.invalidParams "xpub")

def parseSign : Params → Except Error (String × String)
  | .sign n p => .ok (n, p)
  | _ => .error (.invalidParams "sign")

def parseBroadcast : Params → Except Error (String × String × Bool)
  | .broadcast n p d => .ok (n, p, d)
  | _ => .error (.invalidParams "broadcast")

def parseWalletDetails : Params → Except Error String
  | .walletDetails n => .ok n
  | _ => .error (.invalidParams "wallet_details")

def parseWalletCombine : Params → Except Error (String × List String)
  | .walletCombine n p => .ok (n, p)
  | _ => .error (.invalidParams "wallet_combine")

def parseWalletPsetDetails : Params → Except Error (String × String)
  | .walletPsetDetails n p => .ok (n, p)
  | _ => .error (.invalidParams "wallet_pset_details")

def parseIssue : Params → Except Error (String × Nat × Option String × Nat × Option String × Option String × Option Nat)
  | .issue n sa aa stok atok c f => .ok (n, sa, aa, stok, atok, c, f)
  | _ => .error (.invalidParams "issue")

def parseContract : Params → Except Error (String × String × String × Nat × String × Nat)
  | .contract d i n p t v => .ok (d, i, n, p, t, v)
  | _ => .error (.invalidParams "contract")

def parseAssetDetails : Params → Except Error String
  | .assetDetails a => .ok a
  | _ => .error (.invalidParams "asset_details")

/-- The request envelope the transport hands to the dispatcher: method name,
optional parameters, id. -/
structure Request where
  id : Nat
  method : String
  params : Option Params

/-- A record of the wallet/signer engine operations a handler invoked, in
order — the observable effect trace of one request (the stub-engine view the
spec proposes for testing). -/
inductive EngineCall where
  | syncCall (wallet : Name)
  | signCall (signerName : Name)
  | finalizeCall (wallet : Name)
  | broadcastCall (wallet : Name)
  deriving DecidableEq, Repr

/-- The outcome of one dispatched request: a response (the dispatcher returns
success), a propagated error (converted by the dispatcher into a structured
error response), or a panic of the handler thread. -/
inductive HandlerOutcome where
  | ok (resp : Response)
  | err (e : Error)
  | panics (msg : String)
  deriving DecidableEq, Repr

/-- The message of a panic caused by unwrapping an absent optional value. -/
def unwrapNoneMsg : String := "called Option::unwrap on a None value"

/-- The message of a panic caused by unwrapping an error result. -/
def unwrapErrMsg (e : String) : String := "called Result::unwrap on an Err value: " ++ e

/-! ## Fingerprint aggregation helpers of `Method::WalletDetails` / `Method::WalletPsetDetails` -/

/-- Translated from lines 440-443 of `lib.rs`: insert every fingerprint into a
set, succeeding only while each insertion is fresh (`hs.insert(f)` is true for
a new element); `seen` is the set accumulated so far. -/
def insertAllNew (seen : List Fingerprint) : List Fingerprint → Bool
  | [] => true
  | f :: rest => if seen.contains f then false else insertAllNew (f :: seen) rest

/-- `has_unique_fingerprints` of the `Method::WalletDetails` arm. -/
def hasUniqueFingerprints (fps : List Fingerprint) : Bool :=
  insertAllNew [] fps

/-- The fingerprint-to-signer resolution loop shared by `WalletDetails` and
`WalletPsetDetails`: map each fingerprint to a `SignerDetails`, threading the
warning accumulator through `name_from_fingerprint`. -/
def resolveSigners (reg : List (Name × AppSigner)) (fps : List Fingerprint)
    (warnings : List String) : List SignerDetails × List String :=
  match fps with
  | [] => ([], warnings)
  | f :: rest =>
    let r := name_from_fingerprint reg f warnings
    let tail := resolveSigners reg rest r.2
    ({ name := r.1, fingerprint := f } :: tail.1, tail.2)

/-- The full warning list a `WalletDetails` call accumulates: the wallet-level
duplicate-fingerprint warning (pushed once, lines 444-446 of `lib.rs`) followed
by the per-fingerprint resolution warnings. -/
def walletDetailsWarnings (reg : List (Name × AppSigner)) (fps : List Fingerprint) :
    List String :=
  (resolveSigners reg fps (if hasUniqueFingerprints fps then [] else [dupFingerprintWarning])).2

/-- The full warning list a `WalletPsetDetails` call accumulates (lines 493-509
of `lib.rs`): it starts empty and collects only the per-fingerprint resolution
warnings over the has-signed then missing-signature fingerprints. -/
def walletPsetDetailsWarnings (reg : List (Name × AppSigner))
    (has : List Fingerprint) (missing : List Fingerprint) : List String :=
  (resolveSigners reg missing (resolveSigners reg has []).2).2

/-! ## Variant parsers of the `common` crate (external, modelled from the spec) -/

/-- Modelled from the spec: the singlesig script-variant selector — a closed
set of names, anything else is a validation error. -/
def parseSinglesigVariant (s : String) : Except String String :=
  if s == "wpkh" ∨ s == "shwpkh" then .ok s
  else .error ("invalid singlesig variant " ++ s)

/-- Modelled from the spec: the descriptor blinding-key selector. -/
def parseBlindingVariant (s : String) : Except String String :=
  if s == "slip77" ∨ s == "elip151" then .ok s
  else .error ("invalid blinding key variant " ++ s)

/-- Modelled from the spec: the multisig script-variant selector. -/
def parseMultisigVariant (s : String) : Except String String :=
  if s == "wsh" then .ok s else .error ("invalid multisig variant " ++ s)

/-- Modelled from the spec: the BIP derivation-standard selector of `Xpub`. -/
def parseBipVariant (s : String) : Except String String :=
  if s == "bip49" ∨ s == "bip84" ∨ s == "bip87" then .ok s
  else .error ("invalid bip variant " ++ s)

/-- The key-origin xpub validation loop of `Method::MultisigDescriptor`
(lines 343-349 of `lib.rs`): each string is parsed, the first failure aborts
with a generic error. -/
def parseKeyorigins (eng : Engine) : List String → Except Error (List String)
  | [] => .ok []
  | k :: rest =>
    match eng.keyoriginXpubFromStr k with
    | .error e => .error (.generic e)
    | .ok k2 =>
      match parseKeyorigins eng rest with
      | .error e => .error e
      | .ok ks => .ok (k2 :: ks)

/-! ## Per-method handlers, translated arm by arm from `inner_method_handler` -/

def handleSchema (idv : Nat) (params : Option Params) (st : State) :
    HandlerOutcome × State × List EngineCall :=
  match parseSchema (params.getD .null) with
  | .error e => (.err e, st, [])
  | .ok (methodStr, direction) =>
    match Method.fromStr methodStr with
    | .error e => (.err (.generic ("method not exist: " ++ e)), st, [])
    | .ok m =>
      match m.schemaOf direction with
      | .error e => (.err e, st, [])
      | .ok s => (.ok (.result idv (.schema s)), st, [])

def handleGenerateSigner (eng : Engine) (idv : Nat) (st : State) :
    HandlerOutcome × State × List EngineCall :=
  match eng.swSignerRandom with
  | .error e => (.err (.upstream e), st, [])
  | .ok r => (.ok (.result idv (.generateSigner r.2)), st, [])

def appVersion : String := "0.1.0"

def handleVersion (idv : Nat) (st : State) : HandlerOutcome × State × List EngineCall :=
  (.ok (.result idv (.version appVersion)), st, [])

def handleLoadWallet (eng : Engine) (idv : Nat) (params : Option Params) (st : State) :
    HandlerOutcome × State × List EngineCall :=
  match parseLoadWallet (params.getD .null) with
  | .error e => (.err e, st, [])
  | .ok (name, descriptor) =>
    match eng.newWollet descriptor with
    | .error e => (.err (.upstream e), st, [])
    | .ok w =>
      match regInsert st.wollets name w with
      | .error e => (.err e, st, [])
      | .ok wollets2 =>
        (.ok (.result idv (.wallet { name := name, descriptor := descriptor })),
         { st with wollets := wollets2 }, [])

def handleUnloadWallet (idv : Nat) (params : Option Params) (st : State) :
    HandlerOutcome × State × List EngineCall :=
  match parseUnloadWallet (params.getD .null) with
  | .error e => (.err e, st, [])
  | .ok name =>
    match regRemove st.wollets name with
    | .error e => (.err e, st, [])
    | .ok r =>
      (.ok (.result idv (.unloadWallet { name := name, descriptor := r.1.descriptorString })),
       { st with wollets := r.2 }, [])

def handleListWallets (idv : Nat) (st : State) : HandlerOutcome × State × List EngineCall :=
  (.ok (.result idv (.listWallets (st.wollets.map
    (fun p => { name := p.1, descriptor := p.2.descriptorString })))), st, [])

def handleLoadSigner (eng : Engine) (idv : Nat) (params : Option Params) (st : State) :
    HandlerOutcome × State × List EngineCall :=
  match parseLoadSigner (params.getD .null) with
  | .error e => (.err e, st, [])
  | .ok (name, kind, mnemonic, fingerprint) =>
    let cont := fun (signer : AppSigner) =>
      let resp := signer_response_from name signer
      match regInsert st.signers name signer with
      | .error e => (.err e, st, ([] : List EngineCall))
      | .ok signers2 =>
        (.ok (.result idv (.signer resp)), { st with signers := signers2 }, [])
    if kind == "software" then
      match mnemonic with
      | none => (.err (.generic "Mnemonic must be set for software signer"), st, [])
      | some m =>
        match eng.swSignerNew m with
        | .error e => (.err (.upstream e), st, [])
        | .ok si => cont (.availableSigner (.software si))
    else if kind == "serial" then
      match eng.jadeFromSerial with
      | .error e => (.err (.upstream e), st, [])
      | .ok si =>
        match eng.jadeUnlock with
        | .error e => (.panics (unwrapErrMsg e), st, [])
        | .ok _ => cont (.availableSigner (.jade si))
    else if kind == "external" then
      match fingerprint with
      | none => (.err (.generic "Fingerprint must be set for external signer"), st, [])
      | some fs =>
        match fingerprintFromStr fs with
        | .error e => (.err (.generic e), st, [])
        | .ok fp => cont (.externalSigner fp)
    else
      (.err (.generic "Invalid signer kind"), st, [])

def handleUnloadSigner (idv : Nat) (params : Option Params) (st : State) :
    HandlerOutcome × State × List EngineCall :=
  match parseUnloadSigner (params.getD .null) with
  | .error e => (.err e, st, [])
  | .ok name =>
    match regRemove st.signers name with
    | .error e => (.err e, st, [])
    | .ok r =>
      (.ok (.result idv (.unloadSigner (signer_response_from name r.1))),
       { st with signers := r.2 }, [])

def handleListSigners (idv : Nat) (st : State) : HandlerOutcome × State × List EngineCall :=
  (.ok (.result idv (.listSigners (st.signers.map
    (fun p => signer_response_from p.1 p.2)))), st, [])

def handleAddress (idv : Nat) (params : Option Params) (st : State) :
    HandlerOutcome × State × List EngineCall :=
  match parseAddress (params.getD .null) with
  | .error e => (.err e, st, [])
  | .ok (name, index) =>
    match regGet st.wollets name with
    | .error e => (.err e, st, [])
    | .ok w =>
      match w.syncResult with
      | .error e => (.err (.upstream e), st, [.syncCall name])
      | .ok _ =>
        match w.addressAt index with
        | .error e => (.err (.upstream e), st, [.syncCall name])
        | .ok a => (.ok (.result idv (.address a.1 a.2)), st, [.syncCall name])

def handleBalance (idv : Nat) (params : Option Params) (st : State) :
    HandlerOutcome × State × List EngineCall :=
  match parseBalance (params.getD .null) with
  | .error e => (.err e, st, [])
  | .ok name =>
    match regGet st.wollets name with
    | .error e => (.err e, st, [])
    | .ok w =>
      match w.syncResult with
      | .error e => (.err (.upstream e), st, [.syncCall name])
      | .ok _ =>
        match w.balanceResult with
        | .error e => (.err (.upstream e), st, [.syncCall name])
        | .ok b => (.ok (.result idv (.balance b)), st, [.syncCall name])

def handleSendMany (idv : Nat) (params : Option Params) (st : State) :
    HandlerOutcome × State × List EngineCall :=
  match params with
  | none => (.panics unwrapNoneMsg, st, [])
  | some ps =>
    match parseSend ps with
    | .error e => (.err e, st, [])
    | .ok (name, addressees, feeRate) =>
      match regGet st.wollets name with
      | .error e => (.err e, st, [])
      | .ok w =>
        match w.syncResult with
        | .error e => (.err (.upstream e), st, [.syncCall name])
        | .ok _ =>
          match w.sendManyResult addressees feeRate with
          | .error e => (.err (.upstream e), st, [.syncCall name])
          | .ok p => (.ok (.result idv (.pset p)), st, [.syncCall name])

def handleSinglesigDescriptor (eng : Engine) (idv : Nat) (params : Option Params)
    (st : State) : HandlerOutcome × State × List EngineCall :=
  match params with
  | none => (.panics unwrapNoneMsg, st, [])
  | some ps =>
    match parseSinglesigDescriptor ps with
    | .error e => (.err e, st, [])
    | .ok (name, singlesigKind, blindingKind) =>
      match getAvailable st.signers name with
      | .error e => (.err e, st, [])
      | .ok signer =>
        match parseSinglesigVariant singlesigKind with
        | .error e => (.err (.generic e), st, [])
        | .ok sv =>
          match parseBlindingVariant blindingKind with
          | .error e => (.err (.generic e), st, [])
          | .ok bv =>
            match eng.singlesigDesc signer.info sv bv with
            | .error e => (.panics (unwrapErrMsg e), st, [])
            | .ok d => (.ok (.result idv (.singlesigDescriptor d)), st, [])

def handleMultisigDescriptor (eng : Engine) (idv : Nat) (params : Option Params)
    (st : State) : HandlerOutcome × State × List EngineCall :=
  match params with
  | none => (.panics unwrapNoneMsg, st, [])
  | some ps =>
    match parseMultisigDescriptor ps with
    | .error e => (.err e, st, [])
    | .ok (threshold, keyoriginXpubs, multisigKind, blindingKind) =>
      match parseMultisigVariant multisigKind with
      | .error e => (.err (.generic e), st, [])
      | .ok mv =>
        match parseBlindingVariant blindingKind with
        | .error e => (.err (.generic e), st, [])
        | .ok bv =>
          match parseKeyorigins eng keyoriginXpubs with
          | .error e => (.err e, st, [])
          | .ok ks =>
            match eng.multisigDesc threshold ks mv bv with
            | .error e => (.err (.upstream e), st, [])
            | .ok d => (.ok (.result idv (.multisigDescriptor d)), st, [])

def handleXpub (eng : Engine) (idv : Nat) (params : Option Params) (st : State) :
    HandlerOutcome × State × List EngineCall :=
  match params with
  | none => (.panics unwrapNoneMsg, st, [])
  | some ps =>
    match parseXpub ps with
    | .error e => (.err e, st, [])
    | .ok (name, xpubKind) =>
      match getAvailable st.signers name with
      | .error e => (.err e, st, [])
      | .ok signer =>
        match parseBipVariant xpubKind with
        | .error e => (.err (.generic e), st, [])
        | .ok bip =>
          match eng.signerKeyoriginXpub signer.info bip with
          | .error e => (.err (.upstream e), st, [])
          | .ok k => (.ok (.result idv (.xpub k)), st, [])

def handleSign (eng : Engine) (idv : Nat) (params : Option Params) (st : State) :
    HandlerOutcome × State × List EngineCall :=
  match params with
  | none => (.panics unwrapNoneMsg, st, [])
  | some ps =>
    match parseSign ps with
    | .error e => (.err e, st, [])
    | .ok (name, psetText) =>
      match getAvailable st.signers name with
      | .error e => (.err e, st, [])
      | .ok signer =>
        match eng.parsePset psetText with
        | .error e => (.err (.generic e), st, [])
        | .ok pset =>
          match eng.signerSign signer.info pset with
          | .error e => (.err (.upstream e), st, [.signCall name])
          | .ok pset2 => (.ok (.result idv (.pset pset2)), st, [.signCall name])

def handleBroadcast (eng : Engine) (idv : Nat) (params : Option Params) (st : State) :
    HandlerOutcome × State × List EngineCall :=
  match params with
  | none => (.panics unwrapNoneMsg, st, [])
  | some ps =>
    match parseBroadcast ps with
    | .error e => (.err e, st, [])
    | .ok (name, psetText, dryRun) =>
      match regGet st.wollets name with
      | .error e => (.err e, st, [])
      | .ok w =>
        match eng.parsePset psetText with
        | .error e => (.err (.generic e), st, [])
        | .ok pset =>
          match w.finalizeResult pset with
          | .error e => (.err (.upstream e), st, [.finalizeCall name])
          | .ok tx =>
            if dryRun then
              (.ok (.result idv (.broadcast tx.txid)), st, [.finalizeCall name])
            else
              match w.broadcastResult tx with
              | .error e => (.err (.upstream e), st, [.finalizeCall name, .broadcastCall name])
              | .ok _ =>
                (.ok (.result idv (.broadcast tx.txid)), st,
                 [.finalizeCall name, .broadcastCall name])

def handleWalletDetails (idv : Nat) (params : Option Params) (st : State) :
    HandlerOutcome × State × List EngineCall :=
  match params with
  | none => (.panics unwrapNoneMsg, st, [])
  | some ps =>
    match parseWalletDetails ps with
    | .error e => (.err e, st, [])
    | .ok name =>
      match regGet st.wollets name with
      | .error e => (.err e, st, [])
      | .ok w =>
        let typeStr := (walletTypeOf w.descriptorAst).toStr
        let warnings0 :=
          if hasUniqueFingerprints w.signersList then [] else [dupFingerprintWarning]
        let resolved := resolveSigners st.signers w.signersList warnings0
        (.ok (.result idv (.walletDetails typeStr resolved.1
          (String.intercalate ", " resolved.2))), st, [])

def handleWalletCombine (idv : Nat) (params : Option Params) (st : State) :
    HandlerOutcome × State × List EngineCall :=
  match params with
  | none => (.panics unwrapNoneMsg, st, [])
  | some ps =>
    match parseWalletCombine ps with
    | .error e => (.err e, st, [])
    | .ok (name, psets) =>
      match regGet st.wollets name with
      | .error e => (.err e, st, [])
      | .ok w =>
        match w.combineResult psets with
        | .error e => (.err (.upstream e), st, [])
        | .ok p => (.ok (.result idv (.walletCombine p)), st, [])

def handleWalletPsetDetails (eng : Engine) (idv : Nat) (params : Option Params)
    (st : State) : HandlerOutcome × State × List EngineCall :=
  match params with
  | none => (.panics unwrapNoneMsg, st, [])
  | some ps =>
    match parseWalletPsetDetails ps with
    | .error e => (.err e, st, [])
    | .ok (name, psetText) =>
      match regGet st.wollets name with
      | .error e => (.err e, st, [])
      | .ok w =>
        match eng.parsePset psetText with
        | .error e => (.err (.generic e), st, [])
        | .ok pset =>
          match w.getDetails pset with
          | .error e => (.err (.upstream e), st, [])
          | .ok d =>
            let hasResolved := resolveSigners st.signers d.1 []
            let missResolved := resolveSigners st.signers d.2 hasResolved.2
            (.ok (.result idv (.walletPsetDetails hasResolved.1 missResolved.1
              (String.intercalate ", " missResolved.2))), st, [])

def handleIssue (idv : Nat) (params : Option Params) (st : State) :
    HandlerOutcome × State × List EngineCall :=
  match params with
  | none => (.panics unwrapNoneMsg, st, [])
  | some ps =>
    match parseIssue ps with
    | .error e => (.err e, st, [])
    | .ok (name, satoshiAsset, addressAsset, satoshiToken, addressToken, contract, feeRate) =>
      match regGet st.wollets name with
      | .error e => (.err e, st, [])
      | .ok w =>
        match w.syncResult with
        | .error e => (.err (.upstream e), st, [.syncCall name])
        | .ok _ =>
          match w.issueAssetResult satoshiAsset (addressAsset.getD "") satoshiToken
              (addressToken.getD "") (contract.getD "") feeRate with
          | .error e => (.err (.upstream e), st, [.syncCall name])
          | .ok p => (.ok (.result idv (.pset p)), st, [.syncCall name])

def handleContract (eng : Engine) (idv : Nat) (params : Option Params) (st : State) :
    HandlerOutcome × State × List EngineCall :=
  match params with
  | none => (.panics unwrapNoneMsg, st, [])
  | some ps =>
    match parseContract ps with
    | .error e => (.err e, st, [])
    | .ok (domain, issuerPubkey, name, precision, ticker, version) =>
      match bytesFromHex issuerPubkey with
      | .error e => (.err (.generic e), st, [])
      | .ok bytes =>
        let c : ContractData :=
          { domain := domain, issuerPubkey := bytes, name := name,
            precision := precision, ticker := ticker, version := version }
        match eng.contractValidate c with
        | .error e => (.err (.upstream e), st, [])
        | .ok _ => (.ok (.result idv (.contract c)), st, [])

def handleAssetDetails (idv : Nat) (params : Option Params) (st : State) :
    HandlerOutcome × State × List EngineCall :=
  match params with
  | none => (.panics unwrapNoneMsg, st, [])
  | some ps =>
    match parseAssetDetails ps with
    | .error e => (.err e, st, [])
    | .ok assetId =>
      match assetIdFromStr assetId with
      | .error e => (.err (.generic e), st, [])
      | .ok aid =>
        match getAsset st.assets aid with
        | .error e => (.err e, st, [])
        | .ok n => (.ok (.result idv (.assetDetails n)), st, [])

/-- The dispatcher, translated from `inner_method_handler` (lines 122-569 of
`lib.rs`): parse the method name — an unknown name yields the unimplemented
response, successfully, without touching the state — then run the arm for the
resolved method under the state lock. -/
def inner_method_handler (eng : Engine) (req : Request) (st : State) :
    HandlerOutcome × State × List EngineCall :=
  match Method.fromStr req.method with
  | .error e => (.ok (.unimplemented req.id e), st, [])
  | .ok m =>
    match m with
    | .Schema => handleSchema req.id req.params st
    | .GenerateSigner => handleGenerateSigner eng req.id st
    | .Version => handleVersion req.id st
    | .LoadWallet => handleLoadWallet eng req.id req.params st
    | .UnloadWallet => handleUnloadWallet req.id req.params st
    | .ListWallets => handleListWallets req.id st
    | .LoadSigner => handleLoadSigner eng req.id req.params st
    | .UnloadSigner => handleUnloadSigner req.id req.params st
    | .ListSigners => handleListSigners req.id st
    | .Address => handleAddress req.id req.params st
    | .Balance => handleBalance req.id req.params st
    | .SendMany => handleSendMany req.id req.params st
    | .SinglesigDescriptor => handleSinglesigDescriptor eng req.id req.params st
    | .MultisigDescriptor => handleMultisigDescriptor eng req.id req.params st
    | .Xpub => handleXpub eng req.id req.params st
    | .Sign => handleSign eng req.id req.params st
    | .Broadcast => handleBroadcast eng req.id req.params st
    | .WalletDetails => handleWalletDetails req.id req.params st
    | .WalletCombine => handleWalletCombine req.id req.params st
    | .WalletPsetDetails => handleWalletPsetDetails eng req.id req.params st
    | .Issue => handleIssue req.id req.params st
    | .Contract => handleContract eng req.id req.params st
    | .AssetDetails => handleAssetDetails req.id req.params st
    | .Stop => (.err .stop, st, [])

/-! ## Concrete stub engine and states, used to instantiate the theorems -/

def stubSigInfo : SigInfo :=
  { fingerprint := "00000000", identifier := "id0", xpub := "xpub0" }

def stubWollet : Wollet where
  descriptorAst := .wpkh "k1"
  descriptorString := "elwpkh(k1)"
  signersList := []
  syncResult := .ok ()
  addressAt := fun _ => .ok ("addr0", 0)
  balanceResult := .ok []
  sendManyResult := fun _ _ => .ok "pset0"
  finalizeResult := fun _ => .ok { txid := "txid0" }
  broadcastResult := fun _ => .ok ()
  combineResult := fun _ => .ok "pset0"
  getDetails := fun _ => .ok ([], [])
  issueAssetResult := fun _ _ _ _ _ _ => .ok "pset0"

def stubEngine : Engine where
  newWollet := fun d => .ok { stubWollet with descriptorString := d }
  swSignerRandom := .ok (stubSigInfo, "abandon mnemonic")
  swSignerNew := fun _ => .ok stubSigInfo
  jadeFromSerial := .ok stubSigInfo
  jadeUnlock := .ok ()
  singlesigDesc := fun _ _ _ => .ok "desc0"
  multisigDesc := fun _ _ _ _ => .ok "desc0"
  keyoriginXpubFromStr := fun s => .ok s
  signerSign := fun _ p => .ok (p ++ "#signed")
  signerKeyoriginXpub := fun _ _ => .ok "xpub0"
  parsePset := fun p => .ok p
  contractValidate := fun _ => .ok ()

def emptyState : State := {}

/-! ## Shared lemmas -/

theorem regGet_ok_any {α : Type} {reg : List (Name × α)} {n : Name} {w : α}
    (h : regGet reg n = .ok w) : reg.any (fun p => p.1 == n) = true := by
  unfold regGet at h
  cases hf : reg.find? (fun p => p.1 == n) with
  | none => rw [hf] at h; exact absurd h (by simp)
  | some q =>
    have hq := List.find?_some hf
    exact List.any_eq_true.mpr ⟨q, List.mem_of_find?_eq_some hf, hq⟩

theorem count_resolveSigners (reg : List (Name × AppSigner)) (fps : List Fingerprint)
    (ws : List String) :
    List.count dupFingerprintWarning (resolveSigners reg fps ws).2 =
      List.count dupFingerprintWarning ws := by
  induction fps generalizing ws with
  | nil => rfl
  | cons f rest ih =>
    show List.count dupFingerprintWarning
        (resolveSigners reg rest (name_from_fingerprint reg f ws).2).2 = _
    rw [ih]
    unfold name_from_fingerprint
    cases hf : reg.filter (fun p => p.2.fingerprint == f) with
    | nil =>
      simp [List.count_append, List.count_cons, unknownFingerprintWarning,
        dupFingerprintWarning]
    | cons p tl =>
      cases tl with
      | nil => rfl
      | cons q tl2 =>
        simp [List.count_append, List.count_cons, registryCollisionWarning,
          dupFingerprintWarning]

/-! ## The claims -/

/-- C1: the claim says that for every request with a known method name but
malformed or missing parameters the handler never panics.  The code refutes
this: the `SendMany` arm (line 290 of `lib.rs`) calls
`request.params.unwrap()`, which panics whenever a `send_many` request arrives
without a `params` field — for every engine and every session state. -/
theorem c1_send_many_missing_params_panics (eng : Engine) (st : State) (idv : Nat) :
    inner_method_handler eng { id := idv, method := "send_many", params := none } st =
      (.panics unwrapNoneMsg, st, []) := rfl

/-- C2: the descriptor classifier used by `WalletDetails` agrees, on every
descriptor, with the decision order stated by the spec: single-key wpkh, then
script-wrapped wpkh, then wsh wrapping a multi miniscript node (carrying the
threshold and key count of that node), else unknown. -/
theorem c2_wallet_type_classifier_matches_spec (d : Descriptor) :
    walletTypeOf d = walletTypeSpec d := by
  cases d with
  | wpkh k => rfl
  | shWpkh k => rfl
  | shOther t => rfl
  | wsh inner =>
    cases inner with
    | sortedMulti k pks => rfl
    | ms node => cases node <;> rfl
  | bare t => rfl
  | pkh k => rfl

def knownMethodNames : List String :=
  ["schema", "generate_signer", "version", "load_wallet", "unload_wallet",
   "list_wallets", "load_signer", "unload_signer", "list_signers", "address",
   "balance", "send_many", "singlesig_descriptor", "multisig_descriptor",
   "xpub", "sign", "broadcast", "wallet_details", "wallet_combine",
   "wallet_pset_details", "issue", "contract", "asset_details", "stop"]

theorem fromStr_unknown (m : String) (h : m ∉ knownMethodNames) :
    Method.fromStr m = .error m := by
  simp only [knownMethodNames, List.mem_cons, List.not_mem_nil, or_false, not_or] at h
  obtain ⟨h1, h2, h3, h4, h5, h6, h7, h8, h9, h10, h11, h12, h13, h14, h15, h16,
    h17, h18, h19, h20, h21, h22, h23, h24⟩ := h
  simp [Method.fromStr, h1, h2, h3, h4, h5, h6, h7, h8, h9, h10, h11, h12, h13,
    h14, h15, h16, h17, h18, h19, h20, h21, h22, h23, h24]

/-- C5: a request whose method name is outside the closed method set produces,
successfully, an unimplemented response carrying the offending name verbatim
and keyed by the request id; the session state is untouched and no engine
operation runs. -/
theorem c5_unknown_method_unimplemented (eng : Engine) (st : State) (idv : Nat)
    (m : String) (p : Option Params) (h : m ∉ knownMethodNames) :
    inner_method_handler eng { id := idv, method := m, params := p } st =
      (.ok (.unimplemented idv m), st, []) := by
  simp [inner_method_handler, fromStr_unknown m h]

theorem c5_witness :
    "frobnicate" ∉ knownMethodNames ∧
    inner_method_handler stubEngine
        { id := 3, method := "frobnicate", params := none } emptyState =
      (.ok (.unimplemented 3 "frobnicate"), emptyState, []) :=
  ⟨by decide,
   c5_unknown_method_unimplemented stubEngine emptyState 3 "frobnicate" none (by decide)⟩

/-- C8: a `Sign` request naming an external (capability-less) signer fails with
a recoverable error straight after signer resolution: no signing engine call is
recorded, the registries are unchanged, and no response carrying a PSET is
produced, so the supplied PSET text is never mutated. -/
theorem c8_sign_external_signer_fails (eng : Engine) (st : State) (idv : Nat)
    (n psetText : String) (fp : Fingerprint)
    (h : regGet st.signers n = .ok (.externalSigner fp)) :
    inner_method_handler eng
        { id := idv, method := "sign", params := some (.sign n psetText) } st =
      (.err (.generic ("Signer " ++ n ++ " is external and cannot sign")), st, []) := by
  have hd : inner_method_handler eng
      { id := idv, method := "sign", params := some (.sign n psetText) } st =
      handleSign eng idv (some (.sign n psetText)) st := rfl
  have hav : getAvailable st.signers n =
      .error (.generic ("Signer " ++ n ++ " is external and cannot sign")) := by
    unfold getAvailable
    rw [h]
  rw [hd]
  simp [handleSign, parseSign, hav]

theorem c8_witness :
    regGet [("ext", AppSigner.externalSigner "aaaaaaaa")] "ext" =
      .ok (.externalSigner "aaaaaaaa") ∧
    inner_method_handler stubEngine
        { id := 4, method := "sign", params := some (.sign "ext" "psetX") }
        { signers := [("ext", .externalSigner "aaaaaaaa")] } =
      (.err (.generic "Signer ext is external and cannot sign"),
       { signers := [("ext", .externalSigner "aaaaaaaa")] }, []) :=
  ⟨rfl, c8_sign_external_signer_fails stubEngine
    { signers := [("ext", .externalSigner "aaaaaaaa")] } 4 "ext" "psetX" "aaaaaaaa" rfl⟩

/-- C3: loading a wallet under a name already present in the registry fails
with the name-already-exists (Conflict) error, provided the wallet engine
accepts the new descriptor; the registry is unchanged by the failed call — the
whole state is returned as it was, so its size is the same and the entry under
the name still holds its original wallet. -/
theorem c3_load_wallet_conflict (eng : Engine) (st : State) (idv : Nat) (n : Name)
    (d2 : String) (w0 w : Wollet)
    (h1 : regGet st.wollets n = .ok w0)
    (h2 : eng.newWollet d2 = .ok w) :
    inner_method_handler eng
        { id := idv, method := "load_wallet", params := some (.loadWallet n d2) } st =
      (.err (.nameAlreadyExists n), st, []) ∧
    (inner_method_handler eng
        { id := idv, method := "load_wallet", params := some (.loadWallet n d2) } st).2.1.wollets.length
      = st.wollets.length ∧
    regGet (inner_method_handler eng
        { id := idv, method := "load_wallet", params := some (.loadWallet n d2) } st).2.1.wollets n
      = .ok w0 := by
  have hd : inner_method_handler eng
      { id := idv, method := "load_wallet", params := some (.loadWallet n d2) } st =
      handleLoadWallet eng idv (some (.loadWallet n d2)) st := rfl
  have hins : regInsert st.wollets n w = .error (.nameAlreadyExists n) := by
    simp [regInsert, regGet_ok_any h1]
  have hmain : inner_method_handler eng
      { id := idv, method := "load_wallet", params := some (.loadWallet n d2) } st =
      (.err (.nameAlreadyExists n), st, []) := by
    rw [hd]
    simp [handleLoadWallet, parseLoadWallet, h2, hins]
  refine ⟨hmain, ?_, ?_⟩
  · rw [hmain]
  · rw [hmain]
    exact h1

def c3State : State := { wollets := [("w", stubWollet)] }

theorem c3_witness :
    regGet c3State.wollets "w" = .ok stubWollet ∧
    stubEngine.newWollet "elwpkh(k2)" =
      .ok { stubWollet with descriptorString := "elwpkh(k2)" } ∧
    inner_method_handler stubEngine
        { id := 1, method := "load_wallet",
          params := some (.loadWallet "w" "elwpkh(k2)") } c3State =
      (.err (.nameAlreadyExists "w"), c3State, []) :=
  ⟨rfl, rfl,
   (c3_load_wallet_conflict stubEngine c3State 1 "w" "elwpkh(k2)" stubWollet
     { stubWollet with descriptorString := "elwpkh(k2)" } rfl rfl).1⟩

/-- C4: starting from an empty wallet registry, loading a wallet named n with
descriptor D makes ListWallets report exactly that one entry; unloading n then
returns name n with descriptor D and leaves ListWallets empty.  The engine is
assumed to accept D, binding the wallet to it. -/
theorem c4_wallet_round_trip (eng : Engine) (idv1 idv2 idv3 idv4 : Nat) (st : State)
    (n D : String) (w : Wollet)
    (h0 : st.wollets = [])
    (h1 : eng.newWollet D = .ok w)
    (h2 : w.descriptorString = D) :
    inner_method_handler eng
        { id := idv1, method := "load_wallet", params := some (.loadWallet n D) } st =
      (.ok (.result idv1 (.wallet { name := n, descriptor := D })),
       { st with wollets := [(n, w)] }, []) ∧
    inner_method_handler eng
        { id := idv2, method := "list_wallets", params := none }
        { st with wollets := [(n, w)] } =
      (.ok (.result idv2 (.listWallets [{ name := n, descriptor := D }])),
       { st with wollets := [(n, w)] }, []) ∧
    inner_method_handler eng
        { id := idv3, method := "unload_wallet", params := some (.unloadWallet n) }
        { st with wollets := [(n, w)] } =
      (.ok (.result idv3 (.unloadWallet { name := n, descriptor := D })),
       { st with wollets := [] }, []) ∧
    inner_method_handler eng
        { id := idv4, method := "list_wallets", params := none }
        { st with wollets := [] } =
      (.ok (.result idv4 (.listWallets [])), { st with wollets := [] }, []) := by
  refine ⟨?_, ?_, ?_, ?_⟩
  · have hd : inner_method_handler eng
        { id := idv1, method := "load_wallet", params := some (.loadWallet n D) } st =
        handleLoadWallet eng idv1 (some (.loadWallet n D)) st := rfl
    rw [hd]
    simp [handleLoadWallet, parseLoadWallet, h1, regInsert, h0]
  · have hd : inner_method_handler eng
        { id := idv2, method := "list_wallets", params := none }
        { st with wollets := [(n, w)] } =
        handleListWallets idv2 { st with wollets := [(n, w)] } := rfl
    rw [hd]
    simp [handleListWallets, h2]
  · have hd : inner_method_handler eng
        { id := idv3, method := "unload_wallet", params := some (.unloadWallet n) }
        { st with wollets := [(n, w)] } =
        handleUnloadWallet idv3 (some (.unloadWallet n)) { st with wollets := [(n, w)] } := rfl
    rw [hd]
    simp [handleUnloadWallet, parseUnloadWallet, regRemove, List.find?, List.filter, h2]
  · rfl

def c4w : Wollet := { stubWollet with descriptorString := "elwpkh(k2)" }

theorem c4_witness :
    emptyState.wollets = [] ∧
    stubEngine.newWollet "elwpkh(k2)" = .ok c4w ∧
    c4w.descriptorString = "elwpkh(k2)" ∧
    (inner_method_handler stubEngine
        { id := 1, method := "load_wallet",
          params := some (.loadWallet "w" "elwpkh(k2)") } emptyState =
      (.ok (.result 1 (.wallet { name := "w", descriptor := "elwpkh(k2)" })),
       { emptyState with wollets := [("w", c4w)] }, []) ∧
    inner_method_handler stubEngine
        { id := 2, method := "list_wallets", params := none }
        { emptyState with wollets := [("w", c4w)] } =
      (.ok (.result 2 (.listWallets [{ name := "w", descriptor := "elwpkh(k2)" }])),
       { emptyState with wollets := [("w", c4w)] }, []) ∧
    inner_method_handler stubEngine
        { id := 3, method := "unload_wallet", params := some (.unloadWallet "w") }
        { emptyState with wollets := [("w", c4w)] } =
      (.ok (.result 3 (.unloadWallet { name := "w", descriptor := "elwpkh(k2)" })),
       { emptyState with wollets := [] }, []) ∧
    inner_method_handler stubEngine
        { id := 4, method := "list_wallets", params := none }
        { emptyState with wollets := [] } =
      (.ok (.result 4 (.listWallets [])), { emptyState with wollets := [] }, [])) :=
  ⟨rfl, rfl, rfl,
   c4_wallet_round_trip stubEngine 1 2 3 4 emptyState "w" "elwpkh(k2)" c4w rfl rfl rfl⟩

/-- C6: a `WalletDetails` call pushes the wallet-level duplicate-fingerprints
warning exactly once when the signer fingerprint list of the wallet has any
duplicate, and not at all when the fingerprints are all distinct — regardless
of how many fingerprints repeat or how often; the per-fingerprint resolution
warnings never contribute another copy.  The second part ties the warning list
to the full dispatched call. -/
theorem c6_wallet_details_duplicate_warning_once :
    (∀ (reg : List (Name × AppSigner)) (fps : List Fingerprint),
      List.count dupFingerprintWarning (walletDetailsWarnings reg fps) =
        if hasUniqueFingerprints fps then 0 else 1) ∧
    (∀ (eng : Engine) (st : State) (idv : Nat) (n : Name) (w : Wollet),
      regGet st.wollets n = .ok w →
      inner_method_handler eng
          { id := idv, method := "wallet_details", params := some (.walletDetails n) } st =
        (.ok (.result idv (.walletDetails (walletTypeOf w.descriptorAst).toStr
          (resolveSigners st.signers w.signersList
            (if hasUniqueFingerprints w.signersList then [] else [dupFingerprintWarning])).1
          (String.intercalate ", " (walletDetailsWarnings st.signers w.signersList)))),
         st, [])) := by
  constructor
  · intro reg fps
    unfold walletDetailsWarnings
    rw [count_resolveSigners]
    cases h : hasUniqueFingerprints fps with
    | true => simp
    | false => simp [List.count_cons]
  · intro eng st idv n w hw
    have hd : inner_method_handler eng
        { id := idv, method := "wallet_details", params := some (.walletDetails n) } st =
        handleWalletDetails idv (some (.walletDetails n)) st := rfl
    rw [hd]
    simp [handleWalletDetails, parseWalletDetails, hw, walletDetailsWarnings]

def c6Wollet : Wollet := { stubWollet with signersList := ["aaaaaaaa", "aaaaaaaa"] }

def c6State : State :=
  { wollets := [("w", c6Wollet)], signers := [("s", .externalSigner "aaaaaaaa")] }

theorem c6_witness :
    List.count dupFingerprintWarning
        (walletDetailsWarnings c6State.signers ["aaaaaaaa", "aaaaaaaa"]) = 1 ∧
    List.count dupFingerprintWarning
        (walletDetailsWarnings c6State.signers ["aaaaaaaa", "bbbbbbbb"]) = 0 ∧
    regGet c6State.wollets "w" = .ok c6Wollet ∧
    inner_method_handler stubEngine
        { id := 6, method := "wallet_details", params := some (.walletDetails "w") } c6State =
      (.ok (.result 6 (.walletDetails "wpkh"
        [{ name := "s", fingerprint := "aaaaaaaa" }, { name := "s", fingerprint := "aaaaaaaa" }]
        dupFingerprintWarning)), c6State, []) :=
  ⟨c6_wallet_details_duplicate_warning_once.1 c6State.signers ["aaaaaaaa", "aaaaaaaa"],
   c6_wallet_details_duplicate_warning_once.1 c6State.signers ["aaaaaaaa", "bbbbbbbb"],
   rfl,
   c6_wallet_details_duplicate_warning_once.2 stubEngine c6State 6 "w" c6Wollet rfl⟩

def c7Wollet : Wollet :=
  { stubWollet with getDetails := fun _ => .ok (["aaaaaaaa", "aaaaaaaa"], []) }

def c7State : State :=
  { wollets := [("w", c7Wollet)], signers := [("s", .externalSigner "aaaaaaaa")] }

/-- C7: counterexample — a `WalletPsetDetails` call on a wallet whose PSET
signer fingerprints are duplicated raises the wallet-level duplicate
fingerprints warning zero times, not once: the response carries an empty
warning string. -/
theorem c7_counterexample :
    inner_method_handler stubEngine
        { id := 5, method := "wallet_pset_details",
          params := some (.walletPsetDetails "w" "psetX") } c7State =
      (.ok (.result 5 (.walletPsetDetails
        [{ name := "s", fingerprint := "aaaaaaaa" }, { name := "s", fingerprint := "aaaaaaaa" }]
        [] "")), c7State, []) ∧
    List.count dupFingerprintWarning
        (walletPsetDetailsWarnings c7State.signers ["aaaaaaaa", "aaaaaaaa"] []) = 0 :=
  ⟨rfl, rfl⟩

/-- C7 (amended): a `WalletPsetDetails` call never raises the wallet-level
duplicate-fingerprints warning — its warning list holds only the
per-fingerprint resolution warnings, threaded over the has-signed then
missing-signature fingerprints. -/
theorem c7_amended_no_dup_warning :
    (∀ (reg : List (Name × AppSigner)) (has missing : List Fingerprint),
      List.count dupFingerprintWarning (walletPsetDetailsWarnings reg has missing) = 0) ∧
    (∀ (eng : Engine) (st : State) (idv : Nat) (n psetText pset : String) (w : Wollet)
       (has missing : List Fingerprint),
      regGet st.wollets n = .ok w →
      eng.parsePset psetText = .ok pset →
      w.getDetails pset = .ok (has, missing) →
      inner_method_handler eng
          { id := idv, method := "wallet_pset_details",
            params := some (.walletPsetDetails n psetText) } st =
        (.ok (.result idv (.walletPsetDetails
          (resolveSigners st.signers has []).1
          (resolveSigners st.signers missing (resolveSigners st.signers has []).2).1
          (String.intercalate ", " (walletPsetDetailsWarnings st.signers has missing)))),
         st, [])) := by
  constructor
  · intro reg has missing
    unfold walletPsetDetailsWarnings
    rw [count_resolveSigners, count_resolveSigners]
    rfl
  · intro eng st idv n psetText pset w has missing hw hp hg
    have hd : inner_method_handler eng
        { id := idv, method := "wallet_pset_details",
          params := some (.walletPsetDetails n psetText) } st =
        handleWalletPsetDetails eng idv (some (.walletPsetDetails n psetText)) st := rfl
    rw [hd]
    simp [handleWalletPsetDetails, parseWalletPsetDetails, hw, hp, hg,
      walletPsetDetailsWarnings]

theorem c7_amended_witness :
    regGet c7State.wollets "w" = .ok c7Wollet ∧
    stubEngine.parsePset "psetX" = .ok "psetX" ∧
    c7Wollet.getDetails "psetX" = .ok (["aaaaaaaa", "aaaaaaaa"], []) ∧
    List.count dupFingerprintWarning
        (walletPsetDetailsWarnings c7State.signers ["aaaaaaaa", "aaaaaaaa"] []) = 0 ∧
    inner_method_handler stubEngine
        { id := 5, method := "wallet_pset_details",
          params := some (.walletPsetDetails "w" "psetX") } c7State =
      (.ok (.result 5 (.walletPsetDetails
        (resolveSigners c7State.signers ["aaaaaaaa", "aaaaaaaa"] []).1
        (resolveSigners c7State.signers []
          (resolveSigners c7State.signers ["aaaaaaaa", "aaaaaaaa"] []).2).1
        (String.intercalate ", "
          (walletPsetDetailsWarnings c7State.signers ["aaaaaaaa", "aaaaaaaa"] [])))),
       c7State, []) :=
  ⟨rfl, rfl, rfl,
   c7_amended_no_dup_warning.1 c7State.signers ["aaaaaaaa", "aaaaaaaa"] [],
   c7_amended_no_dup_warning.2 stubEngine c7State 5 "w" "psetX" "psetX" c7Wollet
     ["aaaaaaaa", "aaaaaaaa"] [] rfl rfl rfl⟩

/-- C9: a `Broadcast` call with dry_run set records no broadcast engine call —
the network submission step is skipped on every input — and whenever the same
call without dry_run would succeed with some transaction id, the dry run
succeeds with that same transaction id. -/
theorem c9_broadcast_dry_run (eng : Engine) (st : State) (idv : Nat)
    (n psetText : String) :
    (∀ wn, EngineCall.broadcastCall wn ∉
      (inner_method_handler eng
        { id := idv, method := "broadcast",
          params := some (.broadcast n psetText true) } st).2.2) ∧
    (∀ txid,
      (inner_method_handler eng
        { id := idv, method := "broadcast",
          params := some (.broadcast n psetText false) } st).1 =
        .ok (.result idv (.broadcast txid)) →
      (inner_method_handler eng
        { id := idv, method := "broadcast",
          params := some (.broadcast n psetText true) } st).1 =
        .ok (.result idv (.broadcast txid))) := by
  have hdT : inner_method_handler eng
      { id := idv, method := "broadcast", params := some (.broadcast n psetText true) } st =
      handleBroadcast eng idv (some (.broadcast n psetText true)) st := rfl
  have hdF : inner_method_handler eng
      { id := idv, method := "broadcast", params := some (.broadcast n psetText false) } st =
      handleBroadcast eng idv (some (.broadcast n psetText false)) st := rfl
  constructor
  · intro wn
    rw [hdT]
    unfold handleBroadcast
    simp only [parseBroadcast]
    rcases hg : regGet st.wollets n with e | w
    · simp [hg]
    · simp only [hg]
      rcases hp : eng.parsePset psetText with e | pset
      · simp [hp]
      · simp only [hp]
        rcases hf : w.finalizeResult pset with e | tx
        · simp [hf]
        · simp [hf]
  · intro txid h
    rw [hdF] at h
    rw [hdT]
    unfold handleBroadcast at h ⊢
    simp only [parseBroadcast] at h ⊢
    rcases hg : regGet st.wollets n with e | w
    · simp [hg] at h
    · simp only [hg] at h ⊢
      rcases hp : eng.parsePset psetText with e | pset
      · simp [hp] at h
      · simp only [hp] at h ⊢
        rcases hf : w.finalizeResult pset with e | tx
        · simp [hf] at h
        · simp only [hf] at h ⊢
          rcases hb : w.broadcastResult tx with e | u
          · simp [hb] at h
          · simp only [hb] at h
            simpa using h

theorem c9_witness :
    (inner_method_handler stubEngine
        { id := 9, method := "broadcast", params := some (.broadcast "w" "psetX" false) }
        c3State).1 = .ok (.result 9 (.broadcast "txid0")) ∧
    (inner_method_handler stubEngine
        { id := 9, method := "broadcast", params := some (.broadcast "w" "psetX" true) }
        c3State).1 = .ok (.result 9 (.broadcast "txid0")) ∧
    EngineCall.broadcastCall "w" ∉
      (inner_method_handler stubEngine
        { id := 9, method := "broadcast", params := some (.broadcast "w" "psetX" true) }
        c3State).2.2 :=
  ⟨rfl,
   (c9_broadcast_dry_run stubEngine c3State 9 "w" "psetX").2 "txid0" rfl,
   (c9_broadcast_dry_run stubEngine c3State 9 "w" "psetX").1 "w"⟩

/-- C10: `LoadSigner` validation — kind software without a mnemonic, kind
external without a fingerprint, and any kind outside the three known kinds all
fail with a validation error leaving the signer registry untouched; a
successful external load stores exactly the fingerprint-only variant and
returns a record with absent identifier and xpub fields, and every later
`ListSigners` and `UnloadSigner` response renders that entry the same way. -/
theorem c10_load_signer_validation_and_external :
    (∀ (eng : Engine) (st : State) (idv : Nat) (n : String) (fpOpt : Option String),
      inner_method_handler eng
          { id := idv, method := "load_signer", params := some (.loadSigner n "software" none fpOpt) } st =
        (.err (.generic "Mnemonic must be set for software signer"), st, [])) ∧
    (∀ (eng : Engine) (st : State) (idv : Nat) (n : String) (mOpt : Option String),
      inner_method_handler eng
          { id := idv, method := "load_signer", params := some (.loadSigner n "external" mOpt none) } st =
        (.err (.generic "Fingerprint must be set for external signer"), st, [])) ∧
    (∀ (eng : Engine) (st : State) (idv : Nat) (n kind : String)
       (mOpt fpOpt : Option String),
      kind ≠ "software" → kind ≠ "serial" → kind ≠ "external" →
      inner_method_handler eng
          { id := idv, method := "load_signer", params := some (.loadSigner n kind mOpt fpOpt) } st =
        (.err (.generic "Invalid signer kind"), st, [])) ∧
    (∀ (eng : Engine) (st : State) (idv : Nat) (n fs : String) (fp : Fingerprint)
       (mOpt : Option String),
      fingerprintFromStr fs = .ok fp →
      st.signers.any (fun p => p.1 == n) = false →
      inner_method_handler eng
          { id := idv, method := "load_signer", params := some (.loadSigner n "external" mOpt (some fs)) } st =
        (.ok (.result idv (.signer { name := n, id := none, fingerprint := fp, xpub := none })),
         { st with signers := st.signers ++ [(n, .externalSigner fp)] }, [])) ∧
    (∀ (n : Name) (fp : Fingerprint),
      signer_response_from n (.externalSigner fp) =
        { name := n, id := none, fingerprint := fp, xpub := none }) ∧
    (∀ (eng : Engine) (st : State) (idv : Nat),
      inner_method_handler eng
          { id := idv, method := "list_signers", params := none } st =
        (.ok (.result idv (.listSigners
          (st.signers.map (fun p => signer_response_from p.1 p.2)))), st, [])) ∧
    (∀ (eng : Engine) (st : State) (idv : Nat) (n : Name) (fp : Fingerprint)
       (rest : List (Name × AppSigner)),
      regRemove st.signers n = .ok (.externalSigner fp, rest) →
      inner_method_handler eng
          { id := idv, method := "unload_signer", params := some (.unloadSigner n) } st =
        (.ok (.result idv (.unloadSigner
          { name := n, id := none, fingerprint := fp, xpub := none })),
         { st with signers := rest }, [])) := by
  refine ⟨?_, ?_, ?_, ?_, ?_, ?_, ?_⟩
  · intro eng st idv n fpOpt
    rfl
  · intro eng st idv n mOpt
    rfl
  · intro eng st idv n kind mOpt fpOpt h1 h2 h3
    have hd : inner_method_handler eng
        { id := idv, method := "load_signer", params := some (.loadSigner n kind mOpt fpOpt) } st =
        handleLoadSigner eng idv (some (.loadSigner n kind mOpt fpOpt)) st := rfl
    rw [hd]
    simp [handleLoadSigner, parseLoadSigner, h1, h2, h3]
  · intro eng st idv n fs fp mOpt hfp hany
    have hd : inner_method_handler eng
        { id := idv, method := "load_signer", params := some (.loadSigner n "external" mOpt (some fs)) } st =
        handleLoadSigner eng idv (some (.loadSigner n "external" mOpt (some fs))) st := rfl
    rw [hd]
    simp [handleLoadSigner, parseLoadSigner, hfp, regInsert, hany, signer_response_from]
  · intro n fp
    rfl
  · intro eng st idv
    rfl
  · intro eng st idv n fp rest hrem
    have hd : inner_method_handler eng
        { id := idv, method := "unload_signer", params := some (.unloadSigner n) } st =
        handleUnloadSigner idv (some (.unloadSigner n)) st := rfl
    rw [hd]
    simp [handleUnloadSigner, parseUnloadSigner, hrem, signer_response_from]

def c10ExtState : State := { signers := [("ext", AppSigner.externalSigner "aaaaaaaa")] }

theorem c10_witness :
    (inner_method_handler stubEngine
        { id := 1, method := "load_signer", params := some (.loadSigner "s" "software" none none) } emptyState =
      (.err (.generic "Mnemonic must be set for software signer"), emptyState, [])) ∧
    (inner_method_handler stubEngine
        { id := 1, method := "load_signer", params := some (.loadSigner "s" "external" none none) } emptyState =
      (.err (.generic "Fingerprint must be set for external signer"), emptyState, [])) ∧
    ("bogus" ≠ "software" ∧ "bogus" ≠ "serial" ∧ "bogus" ≠ "external" ∧
     inner_method_handler stubEngine
        { id := 1, method := "load_signer", params := some (.loadSigner "s" "bogus" none none) } emptyState =
      (.err (.generic "Invalid signer kind"), emptyState, [])) ∧
    (fingerprintFromStr "aaaaaaaa" = Except.ok "aaaaaaaa" ∧
     emptyState.signers.any (fun p => p.1 == "ext") = false ∧
     inner_method_handler stubEngine
        { id := 1, method := "load_signer", params := some (.loadSigner "ext" "external" none (some "aaaaaaaa")) } emptyState =
      (.ok (.result 1 (.signer
        { name := "ext", id := none, fingerprint := "aaaaaaaa", xpub := none })),
       { emptyState with signers := emptyState.signers ++
          [("ext", .externalSigner "aaaaaaaa")] }, [])) ∧
    (signer_response_from "ext" (.externalSigner "aaaaaaaa") =
      { name := "ext", id := none, fingerprint := "aaaaaaaa", xpub := none }) ∧
    (inner_method_handler stubEngine
        { id := 2, method := "list_signers", params := none } c10ExtState =
      (.ok (.result 2 (.listSigners
        (c10ExtState.signers.map (fun p => signer_response_from p.1 p.2)))),
       c10ExtState, [])) ∧
    (regRemove c10ExtState.signers "ext" = .ok (.externalSigner "aaaaaaaa", []) ∧
     inner_method_handler stubEngine
        { id := 3, method := "unload_signer", params := some (.unloadSigner "ext") } c10ExtState =
      (.ok (.result 3 (.unloadSigner
        { name := "ext", id := none, fingerprint := "aaaaaaaa", xpub := none })),
       { c10ExtState with signers := [] }, [])) :=
  ⟨c10_load_signer_validation_and_external.1 stubEngine emptyState 1 "s" none,
   c10_load_signer_validation_and_external.2.1 stubEngine emptyState 1 "s" none,
   ⟨by decide, by decide, by decide,
    c10_load_signer_validation_and_external.2.2.1 stubEngine emptyState 1 "s" "bogus"
      none none (by decide) (by decide) (by decide)⟩,
   ⟨rfl, rfl,
    c10_load_signer_validation_and_external.2.2.2.1 stubEngine emptyState 1 "ext"
      "aaaaaaaa" "aaaaaaaa" none rfl rfl⟩,
   c10_load_signer_validation_and_external.2.2.2.2.1 "ext" "aaaaaaaa",
   c10_load_signer_validation_and_external.2.2.2.2.2.1 stubEngine c10ExtState 2,
   ⟨rfl,
    c10_load_signer_validation_and_external.2.2.2.2.2.2 stubEngine c10ExtState 3
      "ext" "aaaaaaaa" [] rfl⟩⟩

end SatsailsLwk
